import Mathlib

/-!
Verification development for the KiCanvas document core: the s-expression
tokenizer and parser, the tolerant schema mapper for board and schematic
documents, the theme-driven paint pipeline ordering, the camera transform,
the hit-test index, and the programmatic viewer API state machine.

Numeric document fields are modelled in exact fixed-point millimeters at a
scale of 10^6 (one unit = 10^-6 mm), so a source literal such as `84.2`
becomes the integer `84200000`.  Camera and hit-test geometry is modelled
over the rational numbers.
-/

set_option maxRecDepth 100000

namespace KiCanvasModel

/-! ## Tokenizer

Modelled from the spec: the Tokenizer scans raw text into a stream of atoms
(symbols, quoted strings, numbers) and list delimiters; whitespace is
discarded; quoted strings support escaped quotes; bare numeric tokens are
retained as text until the Schema Mapper coerces them; an unterminated
string is a LexError. -/

inductive Token where
  | atom (text : String)
  | str (text : String)
  | lparen
  | rparen
deriving DecidableEq

structure LexError where
  reason : String
deriving DecidableEq

def isWsChar (c : Char) : Bool :=
  c = ' ' || c = '\n' || c = '\t' || c = '\r'

def isDelimChar (c : Char) : Bool :=
  isWsChar c || c = '(' || c = ')' || c = '"'

/-- Scan the longest run of non-delimiter characters (an atom's text). -/
def takeAtomChars : List Char → (List Char × List Char)
  | [] => ([], [])
  | c :: cs =>
    if isDelimChar c then ([], c :: cs)
    else
      let r := takeAtomChars cs
      (c :: r.1, r.2)

/-- Scan a quoted string body up to the closing quote, handling backslash
escapes; `none` when the string is unterminated. -/
def takeStringChars : List Char → Option (List Char × List Char)
  | [] => none
  | c :: cs =>
    if c = '"' then some ([], cs)
    else if c = '\\' then
      match cs with
      | [] => none
      | d :: ds =>
        match takeStringChars ds with
        | none => none
        | some (body, rest) => some (d :: body, rest)
    else
      match takeStringChars cs with
      | none => none
      | some (body, rest) => some (c :: body, rest)

def tokenizeFuel : Nat → List Char → Except LexError (List Token)
  | 0, _ => .error ⟨"tokenizer out of fuel"⟩
  | _ + 1, [] => .ok []
  | fuel + 1, c :: cs =>
    if isWsChar c then
      tokenizeFuel fuel cs
    else if c = '(' then
      match tokenizeFuel fuel cs with
      | .error e => .error e
      | .ok ts => .ok (.lparen :: ts)
    else if c = ')' then
      match tokenizeFuel fuel cs with
      | .error e => .error e
      | .ok ts => .ok (.rparen :: ts)
    else if c = '"' then
      match takeStringChars cs with
      | none => .error ⟨"unterminated string"⟩
      | some (body, rest) =>
        match tokenizeFuel fuel rest with
        | .error e => .error e
        | .ok ts => .ok (.str ⟨body⟩ :: ts)
    else
      match takeAtomChars (c :: cs) with
      | (acs, rest) =>
        match tokenizeFuel fuel rest with
        | .error e => .error e
        | .ok ts => .ok (.atom ⟨acs⟩ :: ts)

def tokenize (text : String) : Except LexError (List Token) :=
  tokenizeFuel (text.toList.length + 1) text.toList

/-! ## Expression parser

Modelled from the spec: recursive descent assembling tokens into a generic
tree of nested lists; the whole document is one parenthesized form;
unbalanced parentheses is a fatal ParseError. -/

inductive Sexp where
  | atom (text : String)
  | str (text : String)
  | list (items : List Sexp)

structure ParseError where
  reason : String
deriving DecidableEq

def parseManyFuel : Nat → List Token → Except ParseError (List Sexp × List Token)
  | 0, _ => .error ⟨"out of fuel"⟩
  | _ + 1, [] => .ok ([], [])
  | _ + 1, Token.rparen :: ts => .ok ([], Token.rparen :: ts)
  | fuel + 1, Token.atom s :: ts =>
    match parseManyFuel fuel ts with
    | .error e => .error e
    | .ok (items, rest) => .ok (Sexp.atom s :: items, rest)
  | fuel + 1, Token.str s :: ts =>
    match parseManyFuel fuel ts with
    | .error e => .error e
    | .ok (items, rest) => .ok (Sexp.str s :: items, rest)
  | fuel + 1, Token.lparen :: ts =>
    match parseManyFuel fuel ts with
    | .error e => .error e
    | .ok (inner, rest) =>
      match rest with
      | Token.rparen :: rest2 =>
        match parseManyFuel fuel rest2 with
        | .error e => .error e
        | .ok (items, rest3) => .ok (Sexp.list inner :: items, rest3)
      | _ => .error ⟨"unbalanced parentheses"⟩

/-- Parse a complete token stream into the single top-level list form. -/
def parseDoc (ts : List Token) : Except ParseError Sexp :=
  match parseManyFuel (2 * ts.length + 2) ts with
  | .error e => .error e
  | .ok ([Sexp.list items], []) => .ok (Sexp.list items)
  | .ok _ => .error ⟨"expected a single top-level list"⟩

/-! ## Fixed-point number coercion -/

def digitVal (c : Char) : Option Nat :=
  if '0'.toNat ≤ c.toNat && c.toNat ≤ '9'.toNat then some (c.toNat - '0'.toNat)
  else none

def digitsToNatAux : Nat → List Char → Option Nat
  | acc, [] => some acc
  | acc, c :: cs =>
    match digitVal c with
    | none => none
    | some d => digitsToNatAux (10 * acc + d) cs

/-- Value of a fractional digit run, scaled to 10^6 (at most six digits are
significant at this scale). -/
def fracToNat (cs : List Char) : Option Nat :=
  if cs.all (fun c => (digitVal c).isSome) then
    match digitsToNatAux 0 (cs.take 6) with
    | none => none
    | some n => some (n * 10 ^ (6 - (cs.take 6).length))
  else none

def parseFxNonneg (cs : List Char) : Option Int :=
  let intDigits := cs.takeWhile (fun c => (digitVal c).isSome)
  let rest := cs.dropWhile (fun c => (digitVal c).isSome)
  if intDigits.isEmpty then none
  else
    match digitsToNatAux 0 intDigits with
    | none => none
    | some n =>
      match rest with
      | [] => some ((n : Int) * 1000000)
      | '.' :: frac =>
        match fracToNat frac with
        | none => none
        | some f => some ((n : Int) * 1000000 + (f : Int))
      | _ => none

/-- Coerce a numeric atom's text to a fixed-point value (10^6 per mm). -/
def parseFx (cs : List Char) : Option Int :=
  match cs with
  | '-' :: rest => (parseFxNonneg rest).map (fun n => -n)
  | _ => parseFxNonneg cs

/-- Coerce an integer atom's text (used for net numbers). -/
def parseIntNum (cs : List Char) : Option Int :=
  match cs with
  | '-' :: rest =>
    if rest.isEmpty then none
    else (digitsToNatAux 0 rest).map (fun n => -(n : Int))
  | _ =>
    if cs.isEmpty then none
    else (digitsToNatAux 0 cs).map (fun n => (n : Int))

/-! ## Board document model and schema mapper

Modelled from the spec: the Schema Mapper walks the expression tree against
per-element schemas and produces typed design objects; unknown element
kinds produce a recoverable MappingWarning and are skipped; a required
geometric field missing with no safe default is a MappingError dropping
only the single offending element; every element's `uuid` field is a
recognized schema key for every element kind, so mapping it produces no
warning; all diagnostics are collected on the successfully loaded
document. -/

structure Vec2fx where
  x : Int
  y : Int
deriving DecidableEq

structure LineSegment where
  start : Vec2fx
  «end» : Vec2fx
  width : Int
  layer : String
  net : Int
  uuid : Option String
deriving DecidableEq

structure Via where
  «at» : Vec2fx
  size : Int
  drill : Int
  layers : List String
  net : Int
  uuid : Option String
deriving DecidableEq

inductive Diag where
  | warn (message : String)
  | dropped (message : String)
deriving DecidableEq

structure KicadPCB where
  segments : List LineSegment
  vias : List Via
  diagnostics : List Diag
deriving DecidableEq

/-- Outcome of mapping one child form of a `kicad_pcb` document: a typed
element (with any sub-field warnings), recognized metadata, an unknown
element kind (skipped with a warning), or a dropped element (MappingError:
required geometric field missing). -/
inductive ChildRes where
  | seg (s : LineSegment) (ws : List Diag)
  | via (v : Via) (ws : List Diag)
  | meta
  | unknown (message : String)
  | bad (message : String)

structure SegAcc where
  startOpt : Option Vec2fx
  endOpt : Option Vec2fx
  width : Int
  layer : String
  net : Int
  uuid : Option String
  ws : List Diag

def segAccInit : SegAcc := ⟨none, none, 0, "", 0, none, []⟩

/-- Map one sub-field of a `segment` form into the accumulator; unknown
sub-fields yield a warning and are otherwise ignored. -/
def segField (acc : SegAcc) (e : Sexp) : SegAcc :=
  match e with
  | .list (.atom kw :: args) =>
    if kw = "start" then
      match args with
      | [.atom xs, .atom ys] =>
        match parseFx xs.toList, parseFx ys.toList with
        | some x, some y => { acc with startOpt := some ⟨x, y⟩ }
        | _, _ => acc
      | _ => acc
    else if kw = "end" then
      match args with
      | [.atom xs, .atom ys] =>
        match parseFx xs.toList, parseFx ys.toList with
        | some x, some y => { acc with endOpt := some ⟨x, y⟩ }
        | _, _ => acc
      | _ => acc
    else if kw = "width" then
      match args with
      | [.atom ws] =>
        match parseFx ws.toList with
        | some w => { acc with width := w }
        | none => acc
      | _ => acc
    else if kw = "layer" then
      match args with
      | [.str s] => { acc with layer := s }
      | [.atom s] => { acc with layer := s }
      | _ => acc
    else if kw = "net" then
      match args with
      | [.atom n] =>
        match parseIntNum n.toList with
        | some v => { acc with net := v }
        | none => acc
      | _ => acc
    else if kw = "uuid" then
      match args with
      | [.str u] => { acc with uuid := some u }
      | [.atom u] => { acc with uuid := some u }
      | _ => acc
    else
      { acc with ws := acc.ws ++ [.warn ("unknown segment field " ++ kw)] }
  | .atom a =>
    if a = "locked" then acc
    else { acc with ws := acc.ws ++ [.warn ("unknown segment token " ++ a)] }
  | _ => { acc with ws := acc.ws ++ [.warn "unknown segment form"] }

/-- Map a `segment` form's argument list; missing start/end position is a
MappingError that drops this single element. -/
def mapSegment (args : List Sexp) : ChildRes :=
  let acc := args.foldl segField segAccInit
  match acc.startOpt, acc.endOpt with
  | some s, some e => .seg ⟨s, e, acc.width, acc.layer, acc.net, acc.uuid⟩ acc.ws
  | _, _ => .bad "segment: missing required position"

structure ViaAcc where
  atOpt : Option Vec2fx
  size : Int
  drill : Int
  layers : List String
  net : Int
  uuid : Option String
  ws : List Diag

def viaAccInit : ViaAcc := ⟨none, 0, 0, [], 0, none, []⟩

def viaLayerName : Sexp → Option String
  | .str s => some s
  | .atom s => some s
  | _ => none

/-- Map one sub-field of a `via` form into the accumulator. -/
def viaField (acc : ViaAcc) (e : Sexp) : ViaAcc :=
  match e with
  | .list (.atom kw :: args) =>
    if kw = "at" then
      match args with
      | [.atom xs, .atom ys] =>
        match parseFx xs.toList, parseFx ys.toList with
        | some x, some y => { acc with atOpt := some ⟨x, y⟩ }
        | _, _ => acc
      | _ => acc
    else if kw = "size" then
      match args with
      | [.atom v] =>
        match parseFx v.toList with
        | some w => { acc with size := w }
        | none => acc
      | _ => acc
    else if kw = "drill" then
      match args with
      | [.atom v] =>
        match parseFx v.toList with
        | some w => { acc with drill := w }
        | none => acc
      | _ => acc
    else if kw = "layers" then
      { acc with layers := args.filterMap viaLayerName }
    else if kw = "net" then
      match args with
      | [.atom n] =>
        match parseIntNum n.toList with
        | some v => { acc with net := v }
        | none => acc
      | _ => acc
    else if kw = "uuid" then
      match args with
      | [.str u] => { acc with uuid := some u }
      | [.atom u] => { acc with uuid := some u }
      | _ => acc
    else
      { acc with ws := acc.ws ++ [.warn ("unknown via field " ++ kw)] }
  | .atom a =>
    if a = "locked" || a = "free" then acc
    else { acc with ws := acc.ws ++ [.warn ("unknown via token " ++ a)] }
  | _ => { acc with ws := acc.ws ++ [.warn "unknown via form"] }

/-- Map a `via` form's argument list; a missing `at` position is a
MappingError that drops this single element. -/
def mapVia (args : List Sexp) : ChildRes :=
  let acc := args.foldl viaField viaAccInit
  match acc.atOpt with
  | some p => .via ⟨p, acc.size, acc.drill, acc.layers, acc.net, acc.uuid⟩ acc.ws
  | none => .bad "via: missing required position"

def isBoardMetaKw (kw : String) : Bool :=
  kw = "version" || kw = "generator" || kw = "general" || kw = "paper" ||
  kw = "layers" || kw = "setup" || kw = "net" || kw = "title_block"

/-- Map one child form of a `kicad_pcb` document. -/
def mapBoardChild (e : Sexp) : ChildRes :=
  match e with
  | .list (.atom kw :: args) =>
    if kw = "segment" then mapSegment args
    else if kw = "via" then mapVia args
    else if isBoardMetaKw kw then .meta
    else .unknown ("unknown element " ++ kw)
  | .list _ => .unknown "unknown element form"
  | .atom a => .unknown ("unexpected atom " ++ a)
  | .str s => .unknown ("unexpected string " ++ s)

/-- Fold one mapped child onto the front of a partially-built document. -/
def consChild (r : ChildRes) (doc : KicadPCB) : KicadPCB :=
  match r with
  | .seg s ws => { doc with segments := s :: doc.segments, diagnostics := ws ++ doc.diagnostics }
  | .via v ws => { doc with vias := v :: doc.vias, diagnostics := ws ++ doc.diagnostics }
  | .meta => doc
  | .unknown m => { doc with diagnostics := Diag.warn m :: doc.diagnostics }
  | .bad m => { doc with diagnostics := Diag.dropped m :: doc.diagnostics }

/-- Map all children of a `kicad_pcb` document, preserving document order
and never failing: unknown or malformed children only contribute
diagnostics. -/
def mapBoardChildren : List Sexp → KicadPCB
  | [] => ⟨[], [], []⟩
  | e :: rest => consChild (mapBoardChild e) (mapBoardChildren rest)

/-- Map a parsed document expression as a board. -/
def mapBoard (e : Sexp) : Except String KicadPCB :=
  match e with
  | .list (.atom kw :: children) =>
    if kw = "kicad_pcb" then .ok (mapBoardChildren children)
    else .error "not a kicad_pcb document"
  | _ => .error "malformed document root"

/-- Full board load pipeline: tokenize, parse, map. -/
def loadBoardText (text : String) : Except String KicadPCB :=
  match tokenize text with
  | .error e => .error e.reason
  | .ok ts =>
    match parseDoc ts with
    | .error e => .error e.reason
    | .ok e => mapBoard e

/-- Does this mapped child contribute no element to the model (it is skipped
with a warning, or dropped with a MappingError)? -/
def skipsElement : ChildRes → Bool
  | .unknown _ => true
  | .bad _ => true
  | _ => false

/-- Number of diagnostics a mapped child contributes to the document. -/
def childDiagCount : ChildRes → Nat
  | .seg _ ws => ws.length
  | .via _ ws => ws.length
  | .meta => 0
  | .unknown _ => 1
  | .bad _ => 1

/-- A `segment` form carrying only recognized fields, including a `uuid`. -/
def segWith (sxT syT exT eyT wT ly nT uu : String) : Sexp :=
  .list [.atom "segment",
    .list [.atom "start", .atom sxT, .atom syT],
    .list [.atom "end", .atom exT, .atom eyT],
    .list [.atom "width", .atom wT],
    .list [.atom "layer", .str ly],
    .list [.atom "net", .atom nT],
    .list [.atom "uuid", .str uu]]

/-- A `via` form carrying only recognized fields, including a `uuid`. -/
def viaWith (axT ayT szT drT ly1 ly2 nT uu : String) : Sexp :=
  .list [.atom "via",
    .list [.atom "at", .atom axT, .atom ayT],
    .list [.atom "size", .atom szT],
    .list [.atom "drill", .atom drT],
    .list [.atom "layers", .str ly1, .str ly2],
    .list [.atom "net", .atom nT],
    .list [.atom "uuid", .str uu]]

/-- The board document of the UUID regression test: 8 `segment` forms and
2 `via` forms, each carrying `uuid` and `net` fields. -/
def pcbTestDoc : String :=
  "(kicad_pcb (version 20211014) (generator pcbnew)\n\n  (general\n    (thickness 1.6)\n  )\n\n  (paper \"A4\")\n\n  (layers\n    (0 \"F.Cu\" signal)\n    (31 \"B.Cu\" signal)\n  )\n\n  (setup\n    (pad_to_mask_clearance 0)\n  )\n\n  (net 0 \"\")\n  (net 187 \"test_net\")\n\n  (segment (start 84.2 68.25) (end 83.5 67.55) (width 0.6) (layer \"F.Cu\") (net 187) (uuid \"9dc87fca-ddf6-47e3-aad9-0c691a4103b2\"))\n  (segment (start 86.65 64.95) (end 86.6 64.9) (width 0.3) (layer \"F.Cu\") (net 187) (uuid \"d8baa457-5e85-4b9b-a015-c998ce549a54\"))\n  (segment (start 87.9 64.477818) (end 87.427818 64.95) (width 0.3) (layer \"F.Cu\") (net 187) (uuid \"da752323-2518-4e66-bea6-302e0ac4ebe9\"))\n  (segment (start 87.9 63.1) (end 87.9 64.477818) (width 0.3) (layer \"F.Cu\") (net 187) (uuid \"dedfc6dc-7185-428f-a69a-1da1cb30cbf4\"))\n  (segment (start 84.4 63.66) (end 84.4 63.1) (width 0.4) (layer \"F.Cu\") (net 187) (uuid \"e6492ff6-fcdd-49fe-899b-695f85fab8a5\"))\n  (segment (start 85.0625 68.25) (end 84.2 68.25) (width 0.6) (layer \"F.Cu\") (net 187) (uuid \"ea359a61-5936-4b4f-b322-3d520707d26e\"))\n  (segment (start 84.85 62.5) (end 84.85 64.9) (width 0.5) (layer \"B.Cu\") (net 187) (uuid \"37cc8b7d-ebb7-4afd-bbbe-1205f08b0adc\"))\n  (segment (start 84.9625 60.6) (end 86.15 61.7875) (width 0.3) (layer \"B.Cu\") (net 187) (uuid \"6b778c9f-f9af-48e0-9db9-7689963c8ef0\"))\n\n  (via (at 84.85 64.9) (size 0.45) (drill 0.3) (layers \"F.Cu\" \"B.Cu\") (net 187) (uuid \"83d590fe-7b5f-41dc-b2cd-c8542352e545\"))\n  (via (at 84.4 60.6) (size 0.45) (drill 0.3) (layers \"F.Cu\" \"B.Cu\") (net 187) (uuid \"ede4a7fa-aafc-428c-bef5-753b0d603efe\"))\n\n)"

/-! ## Schematic document model and schema mapper

Modelled from the spec: a `kicad_sch` document holds typed collections of
symbols and sheets; `lib_symbols` is the library-symbol table;
`sheet_instances` entries are path strings with page names; unknown child
forms are skipped with a warning; a successfully mapped document is the
Ready state of the load pipeline. -/

structure SheetInstance where
  path : String
  page : String
deriving DecidableEq

structure KicadSch where
  lib_symbols : List String
  symbols : List String
  sheet_instances : List SheetInstance
  diagnostics : List Diag
deriving DecidableEq

def libSymbolName : Sexp → Option String
  | .list (.atom kw :: .str name :: _) => if kw = "symbol" then some name else none
  | _ => none

def sheetInstPage : List Sexp → String
  | [] => ""
  | .list [.atom kw, .str pg] :: rest =>
    if kw = "page" then pg else sheetInstPage rest
  | _ :: rest => sheetInstPage rest

def sheetInstOf : Sexp → Option SheetInstance
  | .list (.atom kw :: .str p :: rest) =>
    if kw = "path" then some ⟨p, sheetInstPage rest⟩ else none
  | _ => none

def isSchMetaKw (kw : String) : Bool :=
  kw = "version" || kw = "generator" || kw = "uuid" || kw = "paper" ||
  kw = "title_block" || kw = "wire" || kw = "junction" || kw = "label" ||
  kw = "no_connect" || kw = "bus" || kw = "sheet"

def placedSymbolName (args : List Sexp) : String :=
  match args.filterMap (fun e =>
    match e with
    | .list [.atom kw, .str v] => if kw = "lib_id" then some v else none
    | _ => none) with
  | v :: _ => v
  | [] => ""

/-- Map all children of a `kicad_sch` document, preserving document order
and never failing. -/
def mapSchChildren : List Sexp → KicadSch
  | [] => ⟨[], [], [], []⟩
  | e :: rest =>
    let doc := mapSchChildren rest
    match e with
    | .list (.atom kw :: args) =>
      if kw = "lib_symbols" then
        { doc with lib_symbols := args.filterMap libSymbolName ++ doc.lib_symbols }
      else if kw = "symbol" then
        { doc with symbols := placedSymbolName args :: doc.symbols }
      else if kw = "sheet_instances" then
        { doc with sheet_instances := args.filterMap sheetInstOf ++ doc.sheet_instances }
      else if isSchMetaKw kw then doc
      else { doc with diagnostics := Diag.warn ("unknown element " ++ kw) :: doc.diagnostics }
    | _ => { doc with diagnostics := Diag.warn "unexpected document child" :: doc.diagnostics }

/-- Map a parsed document expression as a schematic. -/
def mapSch (e : Sexp) : Except String KicadSch :=
  match e with
  | .list (.atom kw :: children) =>
    if kw = "kicad_sch" then .ok (mapSchChildren children)
    else .error "not a kicad_sch document"
  | _ => .error "malformed document root"

/-- Full schematic load pipeline: tokenize, parse, map.  A successful
result is the Ready state of the viewer's load cycle. -/
def loadSchText (text : String) : Except String KicadSch :=
  match tokenize text with
  | .error e => .error e.reason
  | .ok ts =>
    match parseDoc ts with
    | .error e => .error e.reason
    | .ok e => mapSch e

/-- The minimal schematic document of the API test: empty `lib_symbols`
and one `sheet_instances` entry with path "/" and page "1". -/
def schTestDoc : String :=
  "(kicad_sch\n      (version 20211123)\n      (generator eeschema)\n      (uuid c0326988-8693-490b-a3fb-e69d8c3ef544)\n      (paper \"A4\")\n      (title_block\n        (title \"\")\n        (date \"\")\n        (rev \"\")\n        (company \"\")\n      )\n      (lib_symbols)\n      (sheet_instances\n        (path \"/\" (page \"1\"))\n      )\n    )"

/-! ## Theme, painter registry and geometry builder ordering

Modelled from the spec: painting dispatches on the design object's kind,
emitting primitives tagged with a target layer and a resolved color; the
layer set is an ordered list of named layers whose position is the z-order;
painting order across the whole document is deterministic: ascending layer
z-order, then the element's original document order within that layer;
toggling a layer's visibility excludes its primitives. -/

inductive ShapeKind where
  | fillPoly
  | strokePath
  | circleShape
  | textRun
deriving DecidableEq

structure PaintElem where
  layer : String
  shape : ShapeKind
deriving DecidableEq

structure PaintDoc where
  elements : List PaintElem
deriving DecidableEq

structure LayerSet where
  order : List String
deriving DecidableEq

structure Prim where
  z : Nat
  docIdx : Nat
  layerName : String
  shape : ShapeKind
  color : Nat
deriving DecidableEq

/-- Paint the elements of one visible layer, tagging each primitive with
the layer's z-order and the element's original document index. -/
def paintLayer (doc : PaintDoc) (theme : String → Nat) (z : Nat) (name : String) : List Prim :=
  ((List.enumFrom 0 doc.elements).filter (fun p => p.2.layer == name)).map
    (fun p => ⟨z, p.1, name, p.2.shape, theme name⟩)

/-- Paint the whole document: layers in ascending z-order, visible layers
only, elements in document order within each layer. -/
def paint (doc : PaintDoc) (theme : String → Nat) (ls : LayerSet) (vis : String → Bool) : List Prim :=
  (List.enumFrom 0 ls.order).flatMap
    (fun zn => if vis zn.2 then paintLayer doc theme zn.1 zn.2 else [])

/-- Strict lexicographic order on (layer z-order, document order): the
deterministic paint order of the geometry builder. -/
def primBefore (p q : Prim) : Prop :=
  p.z < q.z ∨ (p.z = q.z ∧ p.docIdx < q.docIdx)

/-! ## Camera / viewport

Modelled from the spec: camera state is a center, a zoom > 0 and the
viewport pixel size; `world_to_screen`/`screen_to_world` are inverse
affine transforms; `fit(bbox, padding_ratio)` computes the zoom that fits
the bbox into the viewport at the given padding, clamped to a configured
min/max zoom, and centers on the bbox. -/

structure Camera2 where
  center : ℚ × ℚ
  zoom : ℚ
  viewportW : ℚ
  viewportH : ℚ
deriving DecidableEq

def Camera2.world_to_screen (c : Camera2) (p : ℚ × ℚ) : ℚ × ℚ :=
  ((p.1 - c.center.1) * c.zoom + c.viewportW / 2,
   (p.2 - c.center.2) * c.zoom + c.viewportH / 2)

def Camera2.screen_to_world (c : Camera2) (q : ℚ × ℚ) : ℚ × ℚ :=
  ((q.1 - c.viewportW / 2) / c.zoom + c.center.1,
   (q.2 - c.viewportH / 2) / c.zoom + c.center.2)

structure BBox where
  minX : ℚ
  minY : ℚ
  maxX : ℚ
  maxY : ℚ
deriving DecidableEq

def clampQ (lo hi x : ℚ) : ℚ := max lo (min hi x)

/-- The unclamped zoom that fits `bb` into the viewport at padding ratio
`pad`: the padded viewport extent over the bbox extent, per axis. -/
def fitZoomRaw (c : Camera2) (bb : BBox) (pad : ℚ) : ℚ :=
  min (c.viewportW * (1 - pad) / (bb.maxX - bb.minX))
      (c.viewportH * (1 - pad) / (bb.maxY - bb.minY))

def Camera2.fit (c : Camera2) (bb : BBox) (pad zmin zmax : ℚ) : Camera2 :=
  { c with
    center := ((bb.minX + bb.maxX) / 2, (bb.minY + bb.maxY) / 2),
    zoom := clampQ zmin zmax (fitZoomRaw c bb pad) }

/-- A screen point lies within the padded viewport bounds (the central
`(1 - pad)` fraction of each viewport axis). -/
def inPaddedViewport (c : Camera2) (pad : ℚ) (q : ℚ × ℚ) : Prop :=
  (c.viewportW - c.viewportW * (1 - pad)) / 2 ≤ q.1 ∧
  q.1 ≤ (c.viewportW + c.viewportW * (1 - pad)) / 2 ∧
  (c.viewportH - c.viewportH * (1 - pad)) / 2 ≤ q.2 ∧
  q.2 ≤ (c.viewportH + c.viewportH * (1 - pad)) / 2

/-! ## Hit-test index

Modelled from the spec: the index holds the primitives feeding the
geometry builder, each tagged with its owning design-object identifier;
a query returns the topmost (highest z-order, then latest-drawn) primitive
whose shape contains the query point, with exact geometric containment
tests per primitive kind. -/

inductive HShape where
  | circle (cx cy r : ℚ)
  | rect (x0 y0 x1 y1 : ℚ)
deriving DecidableEq

def hitsShape (s : HShape) (p : ℚ × ℚ) : Bool :=
  match s with
  | .circle cx cy r => decide ((p.1 - cx) ^ 2 + (p.2 - cy) ^ 2 ≤ r ^ 2)
  | .rect x0 y0 x1 y1 => decide (x0 ≤ p.1 ∧ p.1 ≤ x1 ∧ y0 ≤ p.2 ∧ p.2 ≤ y1)

structure HPrim where
  z : Nat
  drawIdx : Nat
  owner : Nat
  shape : HShape
deriving DecidableEq

/-- Does `cand` beat (or tie-and-supersede, being at least as late-drawn
as) the current best primitive? -/
def hitBetter (cand best : HPrim) : Bool :=
  best.z < cand.z || (best.z == cand.z && best.drawIdx ≤ cand.drawIdx)

def hitTestFold : List HPrim → (ℚ × ℚ) → Option HPrim → Option HPrim
  | [], _, best => best
  | h :: t, p, best =>
    if hitsShape h.shape p then
      match best with
      | none => hitTestFold t p (some h)
      | some b => if hitBetter h b then hitTestFold t p (some h) else hitTestFold t p (some b)
    else hitTestFold t p best

/-- Query the hit-test index at a world point: the topmost (highest
z-order, then latest-drawn) primitive containing the point. -/
def hit_test (idx : List HPrim) (p : ℚ × ℚ) : Option HPrim :=
  hitTestFold idx p none

/-! ## Programmatic viewer API (KiCanvas class of src/index.ts)

Embedded from the source: `KiCanvas` holds a container, a project and a
React root, plus an `isDisposed` flag; `loadSchematic`/`loadBoard`
normalize the filename suffix and register the content in a fresh
in-memory file system; `dispose` unmounts the root, disposes the project,
clears the container and marks the instance disposed, returning early when
already disposed; `checkNotDisposed` throws on a disposed instance and
guards every load/query operation. -/

structure KiCanvasState where
  isDisposed : Bool
  hasRoot : Bool
  projectDisposed : Bool
  containerCleared : Bool
  files : List (String × String)
deriving DecidableEq

inductive KCError where
  | disposed
deriving DecidableEq

def KiCanvasNew : KiCanvasState :=
  ⟨false, false, false, false, []⟩

def checkNotDisposed (s : KiCanvasState) : Except KCError Unit :=
  if s.isDisposed then .error .disposed else .ok ()

def renderStep (s : KiCanvasState) : KiCanvasState :=
  { s with hasRoot := true }

def loadFromVFS (s : KiCanvasState) (vfs : List (String × String)) : Except KCError KiCanvasState :=
  match checkNotDisposed s with
  | .error e => .error e
  | .ok _ => .ok (renderStep { s with files := vfs })

def listIsPfx : List Char → List Char → Bool
  | [], _ => true
  | _ :: _, [] => false
  | a :: as, b :: bs => a == b && listIsPfx as bs

def strEndsWith (s suffix : String) : Bool :=
  listIsPfx suffix.toList.reverse s.toList.reverse

def schSuffix : String := ".kicad_sch"

def pcbSuffix : String := ".kicad_pcb"

/-- The filename actually registered: unchanged when it already ends with
the suffix, with the suffix appended otherwise. -/
def normalizeName (filename suffix : String) : String :=
  if strEndsWith filename suffix then filename else filename ++ suffix

def loadSchematic (s : KiCanvasState) (content filename : String) : Except KCError KiCanvasState :=
  match checkNotDisposed s with
  | .error e => .error e
  | .ok _ => loadFromVFS s [(normalizeName filename schSuffix, content)]

def loadBoard (s : KiCanvasState) (content filename : String) : Except KCError KiCanvasState :=
  match checkNotDisposed s with
  | .error e => .error e
  | .ok _ => loadFromVFS s [(normalizeName filename pcbSuffix, content)]

def loadFiles (s : KiCanvasState) (fs : List (String × String)) : Except KCError KiCanvasState :=
  match checkNotDisposed s with
  | .error e => .error e
  | .ok _ => loadFromVFS s fs

/-- `getProject` returns the project handle; modelled as returning the
state it reads from. -/
def getProject (s : KiCanvasState) : Except KCError KiCanvasState :=
  match checkNotDisposed s with
  | .error e => .error e
  | .ok _ => .ok s

def isDisposedInstance (s : KiCanvasState) : Bool :=
  s.isDisposed

def dispose (s : KiCanvasState) : KiCanvasState :=
  if s.isDisposed then s
  else { s with hasRoot := false, projectDisposed := true,
                containerCleared := true, isDisposed := true }

/-! ## Theorems -/

theorem consChild_skipped {r : ChildRes} (h : skipsElement r = true) (d : KicadPCB) :
    (consChild r d).segments = d.segments ∧ (consChild r d).vias = d.vias ∧
    (consChild r d).diagnostics.length = d.diagnostics.length + 1 := by
  cases r <;> simp_all [skipsElement, consChild]

theorem consChild_congr (r : ChildRes) {d1 d2 : KicadPCB}
    (hs : d1.segments = d2.segments) (hv : d1.vias = d2.vias)
    (hd : d1.diagnostics.length = d2.diagnostics.length + 1) :
    (consChild r d1).segments = (consChild r d2).segments ∧
    (consChild r d1).vias = (consChild r d2).vias ∧
    (consChild r d1).diagnostics.length = (consChild r d2).diagnostics.length + 1 := by
  cases r <;> simp_all [consChild] <;> omega

theorem mapBoardChildren_insert_skipped (c : Sexp) (h : skipsElement (mapBoardChild c) = true) :
    ∀ (i : Nat) (xs : List Sexp), i ≤ xs.length →
      (mapBoardChildren (xs.insertIdx i c)).segments = (mapBoardChildren xs).segments ∧
      (mapBoardChildren (xs.insertIdx i c)).vias = (mapBoardChildren xs).vias ∧
      (mapBoardChildren (xs.insertIdx i c)).diagnostics.length
        = (mapBoardChildren xs).diagnostics.length + 1
  | 0, xs, _ => by
      rw [List.insertIdx_zero]
      exact consChild_skipped h (mapBoardChildren xs)
  | i + 1, [], hle => absurd hle (Nat.not_succ_le_zero i)
  | i + 1, a :: rest, hle => by
      rw [List.insertIdx_succ_cons]
      have ih := mapBoardChildren_insert_skipped c h i rest (Nat.le_of_succ_le_succ hle)
      exact consChild_congr (mapBoardChild a) ih.1 ih.2.1 ih.2.2

theorem mapSegment_with_uuid (sxT syT exT eyT wT nT : String) (sx sy ex ey w n : Int)
    (ly uu : String)
    (hsx : parseFx sxT.toList = some sx) (hsy : parseFx syT.toList = some sy)
    (hex : parseFx exT.toList = some ex) (hey : parseFx eyT.toList = some ey)
    (hw : parseFx wT.toList = some w) (hn : parseIntNum nT.toList = some n) :
    mapBoardChild (segWith sxT syT exT eyT wT ly nT uu)
      = ChildRes.seg ⟨⟨sx, sy⟩, ⟨ex, ey⟩, w, ly, n, some uu⟩ [] := by
  simp only [String.toList] at hsx hsy hex hey hw hn
  simp [segWith, mapBoardChild, mapSegment, segAccInit, segField, hsx, hsy, hex, hey, hw, hn]

theorem mapVia_with_uuid (axT ayT szT drT nT : String) (ax ay sz dr n : Int)
    (ly1 ly2 uu : String)
    (hax : parseFx axT.toList = some ax) (hay : parseFx ayT.toList = some ay)
    (hsz : parseFx szT.toList = some sz) (hdr : parseFx drT.toList = some dr)
    (hn : parseIntNum nT.toList = some n) :
    mapBoardChild (viaWith axT ayT szT drT ly1 ly2 nT uu)
      = ChildRes.via ⟨⟨ax, ay⟩, sz, dr, [ly1, ly2], n, some uu⟩ [] := by
  simp only [String.toList] at hax hay hsz hdr hn
  simp [viaWith, mapBoardChild, mapVia, viaAccInit, viaField, viaLayerName,
    hax, hay, hsz, hdr, hn]

/-- Claim C1: mapping a board element list with an unrecognized keyword
inserted among valid segment/via forms still maps every other element
(segments and vias are unchanged), and for each element kind an element
carrying a `uuid` field has that field mapped onto the resulting object
with no MappingWarning produced. -/
theorem c1_tolerant_uuid_mapping
    (xs : List Sexp) (i : Nat) (u : Sexp) (m : String)
    (hu : mapBoardChild u = ChildRes.unknown m) (hi : i ≤ xs.length)
    (sxT syT exT eyT wT nT axT ayT szT drT : String)
    (sx sy ex ey w n ax ay sz dr : Int)
    (ly ly1 ly2 uuS uuV : String)
    (hsx : parseFx sxT.toList = some sx) (hsy : parseFx syT.toList = some sy)
    (hex : parseFx exT.toList = some ex) (hey : parseFx eyT.toList = some ey)
    (hw : parseFx wT.toList = some w) (hn : parseIntNum nT.toList = some n)
    (hax : parseFx axT.toList = some ax) (hay : parseFx ayT.toList = some ay)
    (hsz : parseFx szT.toList = some sz) (hdr : parseFx drT.toList = some dr) :
    ((mapBoardChildren (xs.insertIdx i u)).segments = (mapBoardChildren xs).segments ∧
     (mapBoardChildren (xs.insertIdx i u)).vias = (mapBoardChildren xs).vias) ∧
    mapBoardChild (segWith sxT syT exT eyT wT ly nT uuS)
      = ChildRes.seg ⟨⟨sx, sy⟩, ⟨ex, ey⟩, w, ly, n, some uuS⟩ [] ∧
    mapBoardChild (viaWith axT ayT szT drT ly1 ly2 nT uuV)
      = ChildRes.via ⟨⟨ax, ay⟩, sz, dr, [ly1, ly2], n, some uuV⟩ [] := by
  have hskip : skipsElement (mapBoardChild u) = true := by rw [hu]; rfl
  have hins := mapBoardChildren_insert_skipped u hskip i xs hi
  exact ⟨⟨hins.1, hins.2.1⟩,
    mapSegment_with_uuid sxT syT exT eyT wT nT sx sy ex ey w n ly uuS hsx hsy hex hey hw hn,
    mapVia_with_uuid axT ayT szT drT nT ax ay sz dr n ly1 ly2 uuV hax hay hsz hdr hn⟩

/-- Witness for C1 at a concrete document: a `foobar` form inserted before
a valid segment form leaves the mapped segments and vias unchanged, and
concrete segment/via forms carrying a `uuid` map it without warnings. -/
theorem c1_witness :
    ((mapBoardChildren (([segWith "1" "2" "3" "4" "0.5" "F.Cu" "7" "u-1"]).insertIdx 0
          (Sexp.list [Sexp.atom "foobar"]))).segments
        = (mapBoardChildren [segWith "1" "2" "3" "4" "0.5" "F.Cu" "7" "u-1"]).segments ∧
     (mapBoardChildren (([segWith "1" "2" "3" "4" "0.5" "F.Cu" "7" "u-1"]).insertIdx 0
          (Sexp.list [Sexp.atom "foobar"]))).vias
        = (mapBoardChildren [segWith "1" "2" "3" "4" "0.5" "F.Cu" "7" "u-1"]).vias) ∧
    mapBoardChild (segWith "1" "2" "3" "4" "0.5" "F.Cu" "7" "u-1")
      = ChildRes.seg ⟨⟨1000000, 2000000⟩, ⟨3000000, 4000000⟩, 500000, "F.Cu", 7, some "u-1"⟩ [] ∧
    mapBoardChild (viaWith "1" "2" "0.45" "0.3" "F.Cu" "B.Cu" "7" "u-2")
      = ChildRes.via ⟨⟨1000000, 2000000⟩, 450000, 300000, ["F.Cu", "B.Cu"], 7, some "u-2"⟩ [] :=
  c1_tolerant_uuid_mapping
    [segWith "1" "2" "3" "4" "0.5" "F.Cu" "7" "u-1"] 0
    (Sexp.list [Sexp.atom "foobar"]) ("unknown element " ++ "foobar") rfl (Nat.zero_le _)
    "1" "2" "3" "4" "0.5" "7" "1" "2" "0.45" "0.3"
    1000000 2000000 3000000 4000000 500000 7 1000000 2000000 450000 300000
    "F.Cu" "F.Cu" "B.Cu" "u-1" "u-2"
    (by decide) (by decide) (by decide) (by decide) (by decide) (by decide)
    (by decide) (by decide) (by decide) (by decide)

/-- Claim C2: the concrete `kicad_pcb` document with 8 segment and 2 via
forms (each carrying `uuid` and `net`) parses to 8 segments and 2 vias,
with the first segment's start at (84.2, 68.25) mm — 84200000 and
68250000 in 10^-6 mm fixed point — and net 187. -/
theorem c2_board_scenario :
    ((loadBoardText pcbTestDoc).toOption.map
        (fun d => (d.segments.length, d.vias.length)) = some (8, 2)) ∧
    (((loadBoardText pcbTestDoc).toOption.bind (fun d => d.segments.head?)).map
        (fun s => (s.start, s.net)) = some (Vec2fx.mk 84200000 68250000, 187)) := by
  decide

/-- Claim C3: the board mapper never fails the whole document — every
`kicad_pcb` root maps to a document — and inserting any single
unrecognized or malformed child form (one the mapper skips with a warning
or drops with a MappingError) leaves every sibling element mapped,
recording exactly one extra diagnostic. -/
theorem c3_no_whole_document_failure
    (xs : List Sexp) (i : Nat) (c : Sexp)
    (hskip : skipsElement (mapBoardChild c) = true) (hi : i ≤ xs.length) :
    (∀ children : List Sexp,
        mapBoard (Sexp.list (Sexp.atom "kicad_pcb" :: children))
          = Except.ok (mapBoardChildren children)) ∧
    (mapBoardChildren (xs.insertIdx i c)).segments = (mapBoardChildren xs).segments ∧
    (mapBoardChildren (xs.insertIdx i c)).vias = (mapBoardChildren xs).vias ∧
    (mapBoardChildren (xs.insertIdx i c)).diagnostics.length
      = (mapBoardChildren xs).diagnostics.length + 1 := by
  have hins := mapBoardChildren_insert_skipped c hskip i xs hi
  exact ⟨fun children => by simp [mapBoard], hins.1, hins.2.1, hins.2.2⟩

/-- Witness for C3 at a concrete document: a malformed `segment` form with
no position (a MappingError) inserted between two valid forms drops only
itself, leaving the sibling segment and via mapped and adding one
diagnostic. -/
theorem c3_witness :
    (∀ children : List Sexp,
        mapBoard (Sexp.list (Sexp.atom "kicad_pcb" :: children))
          = Except.ok (mapBoardChildren children)) ∧
    (mapBoardChildren (([segWith "1" "2" "3" "4" "0.5" "F.Cu" "7" "u-1",
          viaWith "1" "2" "0.45" "0.3" "F.Cu" "B.Cu" "7" "u-2"]).insertIdx 1
        (Sexp.list [Sexp.atom "segment"]))).segments
      = (mapBoardChildren [segWith "1" "2" "3" "4" "0.5" "F.Cu" "7" "u-1",
          viaWith "1" "2" "0.45" "0.3" "F.Cu" "B.Cu" "7" "u-2"]).segments ∧
    (mapBoardChildren (([segWith "1" "2" "3" "4" "0.5" "F.Cu" "7" "u-1",
          viaWith "1" "2" "0.45" "0.3" "F.Cu" "B.Cu" "7" "u-2"]).insertIdx 1
        (Sexp.list [Sexp.atom "segment"]))).vias
      = (mapBoardChildren [segWith "1" "2" "3" "4" "0.5" "F.Cu" "7" "u-1",
          viaWith "1" "2" "0.45" "0.3" "F.Cu" "B.Cu" "7" "u-2"]).vias ∧
    (mapBoardChildren (([segWith "1" "2" "3" "4" "0.5" "F.Cu" "7" "u-1",
          viaWith "1" "2" "0.45" "0.3" "F.Cu" "B.Cu" "7" "u-2"]).insertIdx 1
        (Sexp.list [Sexp.atom "segment"]))).diagnostics.length
      = (mapBoardChildren [segWith "1" "2" "3" "4" "0.5" "F.Cu" "7" "u-1",
          viaWith "1" "2" "0.45" "0.3" "F.Cu" "B.Cu" "7" "u-2"]).diagnostics.length + 1 :=
  c3_no_whole_document_failure
    [segWith "1" "2" "3" "4" "0.5" "F.Cu" "7" "u-1",
     viaWith "1" "2" "0.45" "0.3" "F.Cu" "B.Cu" "7" "u-2"] 1
    (Sexp.list [Sexp.atom "segment"]) rfl (Nat.le_of_lt (Nat.lt_of_sub_eq_succ rfl))

/-- Claim C9: the minimal `kicad_sch` document with an empty `lib_symbols`
list and one `sheet_instances` entry (path "/", page "1") loads
successfully — the Ready state — with zero symbols and exactly one sheet
instance. -/
theorem c9_minimal_schematic_loads :
    (loadSchText schTestDoc).isOk = true ∧
    ((loadSchText schTestDoc).toOption.map
        (fun d => (d.symbols.length, d.lib_symbols.length, d.sheet_instances))
      = some (0, 0, [SheetInstance.mk "/" "1"])) := by
  decide

theorem enumFrom_fst_le {α : Type _} :
    ∀ (l : List α) (n : Nat) (p : Nat × α), p ∈ List.enumFrom n l → n ≤ p.1
  | [], _, _, h => by simp [List.enumFrom] at h
  | a :: t, n, p, h => by
      rw [show List.enumFrom n (a :: t) = (n, a) :: List.enumFrom (n + 1) t from rfl] at h
      rcases List.mem_cons.mp h with h1 | h2
      · rw [h1]
      · exact Nat.le_of_succ_le (enumFrom_fst_le t (n + 1) p h2)

theorem enumFrom_pairwise_fst {α : Type _} :
    ∀ (l : List α) (n : Nat),
      List.Pairwise (fun a b : Nat × α => a.1 < b.1) (List.enumFrom n l)
  | [], _ => List.Pairwise.nil
  | a :: t, n => by
      rw [show List.enumFrom n (a :: t) = (n, a) :: List.enumFrom (n + 1) t from rfl]
      refine List.Pairwise.cons (fun b hb => ?_) (enumFrom_pairwise_fst t (n + 1))
      exact Nat.lt_of_succ_le (enumFrom_fst_le t (n + 1) b hb)

theorem paintLayer_mem_z (doc : PaintDoc) (theme : String → Nat) (z : Nat) (name : String) :
    ∀ p ∈ paintLayer doc theme z name, p.z = z := by
  intro p hp
  rcases List.mem_map.mp hp with ⟨q, _, rfl⟩
  rfl

theorem paintLayer_pairwise (doc : PaintDoc) (theme : String → Nat) (z : Nat) (name : String) :
    List.Pairwise primBefore (paintLayer doc theme z name) := by
  unfold paintLayer
  refine (List.pairwise_map).mpr ?_
  refine List.Pairwise.imp (fun hab => ?_)
    (List.Pairwise.filter _ (enumFrom_pairwise_fst doc.elements 0))
  exact Or.inr ⟨rfl, hab⟩

theorem mem_vis_paintLayer (doc : PaintDoc) (theme : String → Nat) (vis : String → Bool)
    {n : Nat} {a : String} {p : Prim}
    (hp : p ∈ if vis a = true then paintLayer doc theme n a else []) : p.z = n := by
  by_cases hv : vis a = true
  · rw [if_pos hv] at hp
    exact paintLayer_mem_z doc theme n a p hp
  · rw [if_neg hv] at hp
    simp at hp

theorem paint_aux (doc : PaintDoc) (theme : String → Nat) (vis : String → Bool) :
    ∀ (names : List String) (n : Nat),
      List.Pairwise primBefore
        ((List.enumFrom n names).flatMap
          (fun zn => if vis zn.2 then paintLayer doc theme zn.1 zn.2 else [])) ∧
      ∀ p ∈ (List.enumFrom n names).flatMap
          (fun zn => if vis zn.2 then paintLayer doc theme zn.1 zn.2 else []), n ≤ p.z
  | [], n => by simp [List.enumFrom]
  | a :: t, n => by
      have ih := paint_aux doc theme vis t (n + 1)
      rw [show List.enumFrom n (a :: t) = (n, a) :: List.enumFrom (n + 1) t from rfl,
        List.flatMap_cons]
      constructor
      · refine (List.pairwise_append).mpr ⟨?_, ih.1, fun p hp q hq => ?_⟩
        · by_cases hv : vis a = true
          · rw [if_pos hv]
            exact paintLayer_pairwise doc theme n a
          · rw [if_neg hv]
            exact List.Pairwise.nil
        · have hqz : n + 1 ≤ q.z := ih.2 q hq
          have hpz : p.z = n := mem_vis_paintLayer doc theme vis hp
          exact Or.inl (by omega)
      · intro p hp
        rcases List.mem_append.mp hp with h1 | h2
        · have hpz : p.z = n := mem_vis_paintLayer doc theme vis h1
          omega
        · exact Nat.le_of_succ_le (ih.2 p h2)

/-- Claim C4: painting is deterministic — repainting the same document,
theme and visible-layer set yields the identical primitive list — and the
emitted primitives are ordered by ascending layer z-order and, within each
layer, by the element's original document order. -/
theorem c4_painting_deterministic (doc : PaintDoc) (theme : String → Nat)
    (ls : LayerSet) (vis : String → Bool) :
    paint doc theme ls vis = paint doc theme ls vis ∧
    List.Pairwise primBefore (paint doc theme ls vis) :=
  ⟨rfl, (paint_aux doc theme vis ls.order 0).1⟩

/-- Claim C5: for every camera with positive zoom, `world_to_screen` and
`screen_to_world` are exact inverses of each other (exact equality over ℚ,
hence within any 1e-6 mm tolerance). -/
theorem c5_camera_inverse (c : Camera2) (p q : ℚ × ℚ) (hz : 0 < c.zoom) :
    c.screen_to_world (c.world_to_screen p) = p ∧
    c.world_to_screen (c.screen_to_world q) = q := by
  have hz' : c.zoom ≠ 0 := ne_of_gt hz
  constructor
  · unfold Camera2.world_to_screen Camera2.screen_to_world
    rw [Prod.ext_iff]
    constructor <;> (simp only []; field_simp; try ring)
  · unfold Camera2.world_to_screen Camera2.screen_to_world
    rw [Prod.ext_iff]
    constructor <;> (simp only []; field_simp; try ring)

/-- Witness for C5 at a concrete camera, point and screen point. -/
theorem c5_witness :
    (Camera2.mk (1, 2) 2 800 600).screen_to_world
        ((Camera2.mk (1, 2) 2 800 600).world_to_screen (3, 4)) = (3, 4) ∧
    (Camera2.mk (1, 2) 2 800 600).world_to_screen
        ((Camera2.mk (1, 2) 2 800 600).screen_to_world (5, 6)) = (5, 6) :=
  c5_camera_inverse (Camera2.mk (1, 2) 2 800 600) (3, 4) (5, 6) (by decide)

/-- Claim C6: for a non-degenerate bbox and a positive padded viewport,
when the configured min/max zoom clamp leaves the fitted zoom unchanged,
`fit` projects all four bbox corners into the padded viewport bounds, and
`fit` is idempotent: re-fitting the same bbox leaves the camera unchanged
(idempotence holds regardless of the clamp). -/
theorem c6_fit_correct (c : Camera2) (bb : BBox) (pad zmin zmax : ℚ)
    (hx : bb.minX < bb.maxX) (hy : bb.minY < bb.maxY)
    (hvw : 0 < c.viewportW * (1 - pad)) (hvh : 0 < c.viewportH * (1 - pad))
    (hlo : zmin ≤ fitZoomRaw c bb pad) (hhi : fitZoomRaw c bb pad ≤ zmax) :
    inPaddedViewport c pad ((c.fit bb pad zmin zmax).world_to_screen (bb.minX, bb.minY)) ∧
    inPaddedViewport c pad ((c.fit bb pad zmin zmax).world_to_screen (bb.maxX, bb.minY)) ∧
    inPaddedViewport c pad ((c.fit bb pad zmin zmax).world_to_screen (bb.minX, bb.maxY)) ∧
    inPaddedViewport c pad ((c.fit bb pad zmin zmax).world_to_screen (bb.maxX, bb.maxY)) ∧
    (c.fit bb pad zmin zmax).fit bb pad zmin zmax = c.fit bb pad zmin zmax := by
  have hbw : 0 < bb.maxX - bb.minX := by linarith
  have hbh : 0 < bb.maxY - bb.minY := by linarith
  have hz0 : 0 < fitZoomRaw c bb pad :=
    lt_min (div_pos hvw hbw) (div_pos hvh hbh)
  have hzw : fitZoomRaw c bb pad * (bb.maxX - bb.minX) ≤ c.viewportW * (1 - pad) :=
    (le_div_iff₀ hbw).mp (min_le_left _ _)
  have hzh : fitZoomRaw c bb pad * (bb.maxY - bb.minY) ≤ c.viewportH * (1 - pad) :=
    (le_div_iff₀ hbh).mp (min_le_right _ _)
  have hclamp : clampQ zmin zmax (fitZoomRaw c bb pad) = fitZoomRaw c bb pad := by
    unfold clampQ
    rw [min_eq_right hhi, max_eq_right hlo]
  have hfit : c.fit bb pad zmin zmax
      = Camera2.mk ((bb.minX + bb.maxX) / 2, (bb.minY + bb.maxY) / 2)
          (fitZoomRaw c bb pad) c.viewportW c.viewportH := by
    simp [Camera2.fit, hclamp]
  have hraw : fitZoomRaw (Camera2.mk ((bb.minX + bb.maxX) / 2, (bb.minY + bb.maxY) / 2)
      (fitZoomRaw c bb pad) c.viewportW c.viewportH) bb pad = fitZoomRaw c bb pad := rfl
  have hidem : (c.fit bb pad zmin zmax).fit bb pad zmin zmax = c.fit bb pad zmin zmax := by
    rw [hfit]
    simp [Camera2.fit, hraw, hclamp]
  refine ⟨?_, ?_, ?_, ?_, hidem⟩
  all_goals
    rw [hfit]
    dsimp only [Camera2.world_to_screen, inPaddedViewport]
    refine ⟨?_, ?_, ?_, ?_⟩ <;>
      linarith [hzw, hzh, hz0, mul_pos hz0 hbw, mul_pos hz0 hbh]

/-- Witness for C6 at a concrete camera and bbox. -/
theorem c6_witness :
    inPaddedViewport (Camera2.mk (0, 0) 1 100 100) 0
      (((Camera2.mk (0, 0) 1 100 100).fit (BBox.mk 0 0 10 10) 0 0 1000).world_to_screen
        (0, 0)) ∧
    inPaddedViewport (Camera2.mk (0, 0) 1 100 100) 0
      (((Camera2.mk (0, 0) 1 100 100).fit (BBox.mk 0 0 10 10) 0 0 1000).world_to_screen
        (10, 0)) ∧
    inPaddedViewport (Camera2.mk (0, 0) 1 100 100) 0
      (((Camera2.mk (0, 0) 1 100 100).fit (BBox.mk 0 0 10 10) 0 0 1000).world_to_screen
        (0, 10)) ∧
    inPaddedViewport (Camera2.mk (0, 0) 1 100 100) 0
      (((Camera2.mk (0, 0) 1 100 100).fit (BBox.mk 0 0 10 10) 0 0 1000).world_to_screen
        (10, 10)) ∧
    ((Camera2.mk (0, 0) 1 100 100).fit (BBox.mk 0 0 10 10) 0 0 1000).fit
        (BBox.mk 0 0 10 10) 0 0 1000
      = (Camera2.mk (0, 0) 1 100 100).fit (BBox.mk 0 0 10 10) 0 0 1000 :=
  c6_fit_correct (Camera2.mk (0, 0) 1 100 100) (BBox.mk 0 0 10 10) 0 0 1000
    (by norm_num) (by norm_num) (by norm_num) (by norm_num)
    (by norm_num [fitZoomRaw]) (by norm_num [fitZoomRaw])

/-- Claim C7: querying the hit-test index at a point inside the
intersection of two overlapping primitives returns the one on the higher
z-order layer; a tie within the same layer resolves to the latest-drawn
primitive. -/
theorem c7_hit_test_topmost (a b : HPrim) (p : ℚ × ℚ)
    (ha : hitsShape a.shape p = true) (hb : hitsShape b.shape p = true) :
    (a.z < b.z → hit_test [a, b] p = some b) ∧
    (b.z < a.z → hit_test [a, b] p = some a) ∧
    (a.z = b.z → a.drawIdx ≤ b.drawIdx → hit_test [a, b] p = some b) := by
  refine ⟨fun h => ?_, fun h => ?_, fun h hd => ?_⟩
  · have hbet : hitBetter b a = true := by
      simp only [hitBetter, Bool.or_eq_true, Bool.and_eq_true, decide_eq_true_eq, beq_iff_eq]
      omega
    simp [hit_test, hitTestFold, ha, hb, hbet]
  · have hbet : hitBetter b a = false := by
      simp only [hitBetter, Bool.or_eq_false_iff, Bool.and_eq_false_iff,
        decide_eq_false_iff_not, beq_eq_false_iff_ne]
      omega
    simp [hit_test, hitTestFold, ha, hb, hbet]
  · have hbet : hitBetter b a = true := by
      simp only [hitBetter, Bool.or_eq_true, Bool.and_eq_true, decide_eq_true_eq, beq_iff_eq]
      omega
    simp [hit_test, hitTestFold, ha, hb, hbet]

/-- Witness for C7: a circle on layer 0 and an overlapping rectangle on
layer 1, queried at a point inside both, resolve to the rectangle. -/
theorem c7_witness :
    ((HPrim.mk 0 0 1 (HShape.circle 0 0 5)).z < (HPrim.mk 1 1 2 (HShape.rect (-1) (-1) 1 1)).z →
      hit_test [HPrim.mk 0 0 1 (HShape.circle 0 0 5),
        HPrim.mk 1 1 2 (HShape.rect (-1) (-1) 1 1)] (0, 0)
        = some (HPrim.mk 1 1 2 (HShape.rect (-1) (-1) 1 1))) ∧
    ((HPrim.mk 1 1 2 (HShape.rect (-1) (-1) 1 1)).z < (HPrim.mk 0 0 1 (HShape.circle 0 0 5)).z →
      hit_test [HPrim.mk 0 0 1 (HShape.circle 0 0 5),
        HPrim.mk 1 1 2 (HShape.rect (-1) (-1) 1 1)] (0, 0)
        = some (HPrim.mk 0 0 1 (HShape.circle 0 0 5))) ∧
    ((HPrim.mk 0 0 1 (HShape.circle 0 0 5)).z = (HPrim.mk 1 1 2 (HShape.rect (-1) (-1) 1 1)).z →
      (HPrim.mk 0 0 1 (HShape.circle 0 0 5)).drawIdx
          ≤ (HPrim.mk 1 1 2 (HShape.rect (-1) (-1) 1 1)).drawIdx →
      hit_test [HPrim.mk 0 0 1 (HShape.circle 0 0 5),
        HPrim.mk 1 1 2 (HShape.rect (-1) (-1) 1 1)] (0, 0)
        = some (HPrim.mk 1 1 2 (HShape.rect (-1) (-1) 1 1))) :=
  c7_hit_test_topmost (HPrim.mk 0 0 1 (HShape.circle 0 0 5))
    (HPrim.mk 1 1 2 (HShape.rect (-1) (-1) 1 1)) (0, 0)
    (by simp [hitsShape]; try norm_num) (by simp [hitsShape]; try norm_num)

/-- Claim C8: `dispose` is terminal — a disposed instance stays disposed,
disposing again changes nothing, disposing releases the React root, the
project and the container, and every subsequent load or query operation on
a disposed instance fails with the disposed error instead of transitioning
anywhere. -/
theorem c8_dispose_terminal (s t : KiCanvasState) (content filename : String)
    (fs vfs : List (String × String)) (ht : t.isDisposed = true) :
    (dispose s).isDisposed = true ∧
    dispose (dispose s) = dispose s ∧
    (s.isDisposed = false →
      (dispose s).hasRoot = false ∧ (dispose s).projectDisposed = true ∧
      (dispose s).containerCleared = true) ∧
    loadSchematic t content filename = Except.error KCError.disposed ∧
    loadBoard t content filename = Except.error KCError.disposed ∧
    loadFiles t fs = Except.error KCError.disposed ∧
    loadFromVFS t vfs = Except.error KCError.disposed ∧
    getProject t = Except.error KCError.disposed := by
  have hd : ∀ u : KiCanvasState, (dispose u).isDisposed = true := by
    intro u
    by_cases hu : u.isDisposed = true <;> simp [dispose, hu]
  refine ⟨hd s, ?_, fun hs => ?_, ?_, ?_, ?_, ?_, ?_⟩
  · by_cases hs' : s.isDisposed = true <;> simp [dispose, hs']
  · simp [dispose, hs]
  · simp [loadSchematic, checkNotDisposed, ht]
  · simp [loadBoard, checkNotDisposed, ht]
  · simp [loadFiles, checkNotDisposed, ht]
  · simp [loadFromVFS, checkNotDisposed, ht]
  · simp [getProject, checkNotDisposed, ht]

/-- Witness for C8 at concrete states: a fresh instance that is disposed,
and operations attempted on the disposed instance. -/
theorem c8_witness :
    (dispose KiCanvasNew).isDisposed = true ∧
    dispose (dispose KiCanvasNew) = dispose KiCanvasNew ∧
    (KiCanvasNew.isDisposed = false →
      (dispose KiCanvasNew).hasRoot = false ∧ (dispose KiCanvasNew).projectDisposed = true ∧
      (dispose KiCanvasNew).containerCleared = true) ∧
    loadSchematic (dispose KiCanvasNew) "(kicad_sch)" "a" = Except.error KCError.disposed ∧
    loadBoard (dispose KiCanvasNew) "(kicad_sch)" "a" = Except.error KCError.disposed ∧
    loadFiles (dispose KiCanvasNew) [] = Except.error KCError.disposed ∧
    loadFromVFS (dispose KiCanvasNew) [] = Except.error KCError.disposed ∧
    getProject (dispose KiCanvasNew) = Except.error KCError.disposed :=
  c8_dispose_terminal KiCanvasNew (dispose KiCanvasNew) "(kicad_sch)" "a" [] [] rfl

theorem listIsPfx_self_append : ∀ (xs ys : List Char), listIsPfx xs (xs ++ ys) = true
  | [], _ => rfl
  | a :: as, ys => by simp [listIsPfx, listIsPfx_self_append as ys]

theorem strEndsWith_append (f suf : String) : strEndsWith (f ++ suf) suf = true := by
  unfold strEndsWith
  have h : (f ++ suf).toList = f.toList ++ suf.toList := by
    cases f
    cases suf
    rfl
  rw [h, List.reverse_append]
  exact listIsPfx_self_append _ _

/-- Claim C10: on a non-disposed instance, `loadSchematic` registers its
content under a name that always ends in ".kicad_sch" — the filename
unchanged when it already has the suffix, with the suffix appended
otherwise — and `loadBoard` behaves identically with ".kicad_pcb". -/
theorem c10_load_filename_normalization (s : KiCanvasState) (content filename : String)
    (hnd : s.isDisposed = false) :
    (loadSchematic s content filename
        = Except.ok (renderStep { s with files := [(normalizeName filename schSuffix, content)] })) ∧
    strEndsWith (normalizeName filename schSuffix) schSuffix = true ∧
    (strEndsWith filename schSuffix = true → normalizeName filename schSuffix = filename) ∧
    (strEndsWith filename schSuffix = false →
      normalizeName filename schSuffix = filename ++ schSuffix) ∧
    (loadBoard s content filename
        = Except.ok (renderStep { s with files := [(normalizeName filename pcbSuffix, content)] })) ∧
    strEndsWith (normalizeName filename pcbSuffix) pcbSuffix = true ∧
    (strEndsWith filename pcbSuffix = true → normalizeName filename pcbSuffix = filename) ∧
    (strEndsWith filename pcbSuffix = false →
      normalizeName filename pcbSuffix = filename ++ pcbSuffix) := by
  have hend : ∀ suf : String, strEndsWith (normalizeName filename suf) suf = true := by
    intro suf
    unfold normalizeName
    rcases Bool.eq_false_or_eq_true (strEndsWith filename suf) with h | h <;>
      simp [h, strEndsWith_append]
  refine ⟨?_, hend schSuffix, fun h => ?_, fun h => ?_, ?_, hend pcbSuffix,
    fun h => ?_, fun h => ?_⟩
  · simp [loadSchematic, loadFromVFS, checkNotDisposed, hnd]
  · simp [normalizeName, h]
  · simp [normalizeName, h]
  · simp [loadBoard, loadFromVFS, checkNotDisposed, hnd]
  · simp [normalizeName, h]
  · simp [normalizeName, h]

/-- Witness for C10 on a fresh instance and the filename "proj" (no
suffix): the registered names gain the proper suffixes. -/
theorem c10_witness :
    (loadSchematic KiCanvasNew "(kicad_sch)" "proj"
        = Except.ok (renderStep { KiCanvasNew with
            files := [(normalizeName "proj" schSuffix, "(kicad_sch)")] })) ∧
    strEndsWith (normalizeName "proj" schSuffix) schSuffix = true ∧
    (strEndsWith "proj" schSuffix = true → normalizeName "proj" schSuffix = "proj") ∧
    (strEndsWith "proj" schSuffix = false →
      normalizeName "proj" schSuffix = "proj" ++ schSuffix) ∧
    (loadBoard KiCanvasNew "(kicad_sch)" "proj"
        = Except.ok (renderStep { KiCanvasNew with
            files := [(normalizeName "proj" pcbSuffix, "(kicad_sch)")] })) ∧
    strEndsWith (normalizeName "proj" pcbSuffix) pcbSuffix = true ∧
    (strEndsWith "proj" pcbSuffix = true → normalizeName "proj" pcbSuffix = "proj") ∧
    (strEndsWith "proj" pcbSuffix = false →
      normalizeName "proj" pcbSuffix = "proj" ++ pcbSuffix) :=
  c10_load_filename_normalization KiCanvasNew "(kicad_sch)" "proj" rfl

end KiCanvasModel
